import Mathlib

/-!
Verification of the Dropbox Auto-Organizer classification engine
(`src/organize_dropbox.py`, class `DropboxOrganizer`).

The engine is embedded shallowly:

* the resolved configuration (`config.yaml` after `_load_config`) becomes the
  `Config` structure;
* the pure classification helpers `_should_skip`, `_extract_year_from_filename`
  (at its default pattern `20\d{2}`), `_is_document` (via `os.path.splitext`
  and `str.lower`) and `_is_temp_file` become Lean functions on `String`;
* the stateful `_move_file`, `_ensure_folder_exists` and `_organize_file`
  become explicit state-passing functions over `Stats`, emitting the list of
  backend API calls (`files_create_folder` / `files_move_v2`) they would issue;
  backend success or failure is supplied by an `Oracle`;
* `scan_and_organize`'s per-entry loop becomes `runOrganize`.

Python `\d` and `str.lower` are modelled on the ASCII range, which covers all
concrete configuration values appearing in the repository.
-/

namespace DropboxOrg

/-- A file entry from one listing pass: `entry.name` and `entry.path_display`. -/
structure FileEntry where
  name : String
  path : String
  deriving DecidableEq, Repr

/-- The resolved configuration, after `_load_config` and the `.get` defaulting
performed by the helpers: rule toggles, document extensions, temp patterns,
skip lists, the `folders` mapping (an association list, as read from YAML) and
the `dry_run` flag.  The photo `year_pattern` is modelled at its default
`20\d{2}`. -/
structure Config where
  photosEnabled : Bool
  docsEnabled : Bool
  docExtensions : List String
  tempEnabled : Bool
  tempPatterns : List String
  skipFolders : List String
  skipFiles : List String
  folders : List (String × String)
  dryRun : Bool

/-- The `self.stats` counters of `DropboxOrganizer`. -/
structure Stats where
  photosMoved : Nat
  documentsMoved : Nat
  tempMoved : Nat
  errors : Nat
  skipped : Nat
  deriving DecidableEq, Repr

/-- A call issued against the Dropbox backend: folder ensure
(`files_get_metadata` / `files_create_folder_v2`) or `files_move_v2`. -/
inductive BackendCall where
  | ensure (path : String)
  | move (src dst : String)
  deriving DecidableEq, Repr

/-- The backend's behaviour: whether a given move succeeds, and whether a
given folder ensure succeeds.  (`_ensure_folder_exists` swallows its errors,
so `ensureOk` is recorded for modelling but never read by the engine.) -/
structure Oracle where
  moveOk : String → String → Bool
  ensureOk : String → Bool

/-- Python `dict.get(k, default)` on the `folders` mapping. -/
def dictGet (m : List (String × String)) (k dflt : String) : String :=
  match m.find? (fun p => p.1 == k) with
  | some p => p.2
  | none => dflt

/-- Python substring containment `needle in hay` on character lists. -/
def hasSub (needle : List Char) : List Char → Bool
  | [] => needle.isEmpty
  | c :: t => needle.isPrefixOf (c :: t) || hasSub needle t

/-- Python `str.lower` on one character, modelled on the ASCII alphabet
(the only characters occurring in the repository's configuration values). -/
def lowerChar (c : Char) : Char :=
  match c with
  | 'A' => 'a' | 'B' => 'b' | 'C' => 'c' | 'D' => 'd' | 'E' => 'e'
  | 'F' => 'f' | 'G' => 'g' | 'H' => 'h' | 'I' => 'i' | 'J' => 'j'
  | 'K' => 'k' | 'L' => 'l' | 'M' => 'm' | 'N' => 'n' | 'O' => 'o'
  | 'P' => 'p' | 'Q' => 'q' | 'R' => 'r' | 'S' => 's' | 'T' => 't'
  | 'U' => 'u' | 'V' => 'v' | 'W' => 'w' | 'X' => 'x' | 'Y' => 'y'
  | 'Z' => 'z'
  | c => c

/-- Python `filename.lower()`. -/
def strLower (s : String) : String := String.mk (s.toList.map lowerChar)

/-- Does the default year pattern `20\d{2}` match at the head of the list?
(`\d` modelled as an ASCII digit.) -/
def yearHere : List Char → Bool
  | '2' :: '0' :: d1 :: d2 :: _ => d1.isDigit && d2.isDigit
  | _ => false

/-- Left-to-right scan of `re.search(r"20\d{2}", ...)`: the match at the
leftmost matching position, as `re.search` returns it. -/
def extractYearAux : List Char → Option (List Char)
  | [] => none
  | c :: cs => if yearHere (c :: cs) then some ((c :: cs).take 4) else extractYearAux cs

/-- `_extract_year_from_filename`: `None` when `rules.photos.enabled` is
false, otherwise the first match of the (default) year pattern. -/
def extractYearFromFilename (cfg : Config) (name : String) : Option String :=
  if cfg.photosEnabled then (extractYearAux name.toList).map String.mk else none

/-- The suffix of a character list starting at its last dot, or `[]` when it
contains no dot: the core of `os.path.splitext` once leading dots are set
aside. -/
def extAfterLastDot : List Char → List Char
  | [] => []
  | c :: cs =>
      let rest := extAfterLastDot cs
      if rest.isEmpty then (if c == '.' then c :: cs else []) else rest

/-- `os.path.splitext(name)[1]` for a bare filename (no path separator):
the extension starts at the last dot, except that a run of leading dots is
part of the base name (`splitext(".dropbox") == (".dropbox", "")`). -/
def splitextExt (name : String) : String :=
  String.mk (extAfterLastDot (name.toList.dropWhile (fun c => c == '.')))

/-- `_should_skip`: any configured skip folder occurs in the path as a
substring, or the name equals or starts with any configured skip file. -/
def shouldSkip (cfg : Config) (path name : String) : Bool :=
  cfg.skipFolders.any (fun f => hasSub f.toList path.toList) ||
  cfg.skipFiles.any (fun f => name == f || f.toList.isPrefixOf name.toList)

/-- `_is_document`: the extension of the lower-cased filename is in the
configured extension list (false when `rules.documents.enabled` is false). -/
def isDocument (cfg : Config) (name : String) : Bool :=
  if cfg.docsEnabled then cfg.docExtensions.contains (splitextExt (strLower name))
  else false

/-- `_is_temp_file`: any configured temp pattern occurs in the filename as a
substring (false when `rules.temp.enabled` is false). -/
def isTempFile (cfg : Config) (name : String) : Bool :=
  if cfg.tempEnabled then cfg.tempPatterns.any (fun p => hasSub p.toList name.toList)
  else false

/-- `f"/{folders.get('photos', 'Photos Archive')}"`. -/
def photosRoot (cfg : Config) : String :=
  "/" ++ dictGet cfg.folders "photos" "Photos Archive"

/-- The per-year photo folder `f"/{photos_folder}/{year}"`. -/
def yearFolder (cfg : Config) (year : String) : String :=
  photosRoot cfg ++ "/" ++ year

/-- The photo destination `f"{year_folder}/{file_name}"`. -/
def photoDest (cfg : Config) (year name : String) : String :=
  yearFolder cfg year ++ "/" ++ name

/-- `f"/{folders.get('documents', 'Documents & Files')}"`. -/
def documentsRoot (cfg : Config) : String :=
  "/" ++ dictGet cfg.folders "documents" "Documents & Files"

/-- The document destination `f"{dest_folder}/{file_name}"`. -/
def docDest (cfg : Config) (name : String) : String :=
  documentsRoot cfg ++ "/" ++ name

/-- `f"/{folders.get('temp', 'Temp Files')}"`. -/
def tempRoot (cfg : Config) : String :=
  "/" ++ dictGet cfg.folders "temp" "Temp Files"

/-- The temp destination `f"{dest_folder}/{file_name}"`. -/
def tempDest (cfg : Config) (name : String) : String :=
  tempRoot cfg ++ "/" ++ name

/-- `_ensure_folder_exists`: in dry-run mode nothing is issued; otherwise the
backend is contacted.  All `ApiError`s are caught and only logged, so the
call affects neither the stats nor the control flow, whatever the backend
answers. -/
def ensureFolderExists (cfg : Config) (path : String) : List BackendCall :=
  if cfg.dryRun then [] else [.ensure path]

/-- `_move_file`: in dry-run mode, report success without contacting the
backend; otherwise issue the move, and on `ApiError` increment the error
counter and report failure. -/
def moveFile (cfg : Config) (orc : Oracle) (s : Stats) (src dst : String) :
    Bool × Stats × List BackendCall :=
  if cfg.dryRun then (true, s, [])
  else if orc.moveOk src dst then (true, s, [.move src dst])
  else (false, { s with errors := s.errors + 1 }, [.move src dst])

/-- The photo block of `_organize_file` (`if year and not moved: ...`),
returning the updated stats, the `moved` flag and the backend calls issued. -/
def photoStage (cfg : Config) (orc : Oracle) (e : FileEntry) (s : Stats) :
    Stats × Bool × List BackendCall :=
  match extractYearFromFilename cfg e.name with
  | none => (s, false, [])
  | some y =>
      let ev0 := ensureFolderExists cfg (photosRoot cfg) ++
        ensureFolderExists cfg (yearFolder cfg y)
      let r := moveFile cfg orc s e.path (photoDest cfg y e.name)
      if r.1 then
        ({ r.2.1 with photosMoved := r.2.1.photosMoved + 1 }, true, ev0 ++ r.2.2)
      else (r.2.1, false, ev0 ++ r.2.2)

/-- The document block of `_organize_file`
(`if not moved and self._is_document(file_name): ...`). -/
def docStage (cfg : Config) (orc : Oracle) (e : FileEntry) (s : Stats) (moved : Bool) :
    Stats × Bool × List BackendCall :=
  if !moved && isDocument cfg e.name then
    let ev0 := ensureFolderExists cfg (documentsRoot cfg)
    let r := moveFile cfg orc s e.path (docDest cfg e.name)
    if r.1 then
      ({ r.2.1 with documentsMoved := r.2.1.documentsMoved + 1 }, true, ev0 ++ r.2.2)
    else (r.2.1, false, ev0 ++ r.2.2)
  else (s, moved, [])

/-- The temp block of `_organize_file`
(`if not moved and self._is_temp_file(file_name): ...`). -/
def tempStage (cfg : Config) (orc : Oracle) (e : FileEntry) (s : Stats) (moved : Bool) :
    Stats × Bool × List BackendCall :=
  if !moved && isTempFile cfg e.name then
    let ev0 := ensureFolderExists cfg (tempRoot cfg)
    let r := moveFile cfg orc s e.path (tempDest cfg e.name)
    if r.1 then
      ({ r.2.1 with tempMoved := r.2.1.tempMoved + 1 }, true, ev0 ++ r.2.2)
    else (r.2.1, false, ev0 ++ r.2.2)
  else (s, moved, [])

/-- `_organize_file`: skip check, then the photo, document and temp blocks in
order, threading the stats and the `moved` flag. -/
def organizeFile (cfg : Config) (orc : Oracle) (e : FileEntry) (s : Stats) :
    Stats × List BackendCall :=
  if shouldSkip cfg e.path e.name then
    ({ s with skipped := s.skipped + 1 }, [])
  else
    let p := photoStage cfg orc e s
    let d := docStage cfg orc e p.1 p.2.1
    let t := tempStage cfg orc e d.1 d.2.1
    (t.1, p.2.2 ++ d.2.2 ++ t.2.2)

/-- The per-entry loop of `scan_and_organize` over one exhausted listing. -/
def runOrganize (cfg : Config) (orc : Oracle) (entries : List FileEntry) (s : Stats) :
    Stats × List BackendCall :=
  match entries with
  | [] => (s, [])
  | e :: es =>
      let r1 := organizeFile cfg orc e s
      let r2 := runOrganize cfg orc es r1.1
      (r2.1, r1.2 ++ r2.2)

/-- A routing bucket. -/
inductive Category where
  | photos | documents | temp
  deriving DecidableEq, Repr

/-- The routing decision for one entry, as in the specification's router
contract. -/
inductive Decision where
  | skip
  | moveTo (cat : Category) (dest : String)
  | noMatch
  deriving DecidableEq, Repr

/-- The classification cascade of `_organize_file`, read off as a pure
function: the skip check, then the first matching category with the
destination path the code builds for it. -/
def route (cfg : Config) (e : FileEntry) : Decision :=
  if shouldSkip cfg e.path e.name then .skip
  else
    match extractYearFromFilename cfg e.name with
    | some y => .moveTo .photos (photoDest cfg y e.name)
    | none =>
        if isDocument cfg e.name then .moveTo .documents (docDest cfg e.name)
        else if isTempFile cfg e.name then .moveTo .temp (tempDest cfg e.name)
        else .noMatch

/-- The move calls in a backend trace. -/
def moveCalls (evs : List BackendCall) : List BackendCall :=
  evs.filter fun ev => match ev with
    | .move _ _ => true
    | .ensure _ => false

/-- The move calls in a backend trace that the backend answers with
success. -/
def successMoves (orc : Oracle) (evs : List BackendCall) : List BackendCall :=
  evs.filter fun ev => match ev with
    | .move a b => orc.moveOk a b
    | .ensure _ => false

/-- The total of the three per-category moved counters. -/
def movedSum (s : Stats) : Nat := s.photosMoved + s.documentsMoved + s.tempMoved

/-- A backend on which every call succeeds. -/
def allOk : Oracle := ⟨fun _ _ => true, fun _ => true⟩

/-- A backend on which every move fails. -/
def movesFail : Oracle := ⟨fun _ _ => false, fun _ => true⟩

/-- A backend on which folder ensures fail but moves succeed. -/
def ensuresFail : Oracle := ⟨fun _ _ => true, fun _ => false⟩

/-- The configuration of the repository's example `config.yaml` and test
fixture, with empty skip lists and dry-run off. -/
def cfgBase : Config :=
  { photosEnabled := true
    docsEnabled := true
    docExtensions := [".pdf", ".docx", ".txt"]
    tempEnabled := true
    tempPatterns := ["USER_SCOPED_TEMP", "_sync", ".tmp"]
    skipFolders := []
    skipFiles := []
    folders := [("photos", "Photos Archive"), ("documents", "Documents & Files"),
      ("temp", "Temp Files")]
    dryRun := false }

/-- All-zero stats, as at the start of a run. -/
def stats0 : Stats := ⟨0, 0, 0, 0, 0⟩

/-- `cfgBase` with an empty `folders` mapping. -/
def cfgNoFolders : Config := { cfgBase with folders := [] }

/-- `cfgBase` in dry-run mode. -/
def cfgDry : Config := { cfgBase with dryRun := true }

/-- `cfgBase` with the skip folder `"Temp"` configured. -/
def cfgSkipTemp : Config := { cfgBase with skipFolders := ["Temp"] }

/-- `cfgBase` with the skip file `".dropbox"` configured. -/
def cfgSkipDropbox : Config := { cfgBase with skipFiles := [".dropbox"] }

/-- An entry whose name matches both the photo rule and the document rule. -/
def eReport : FileEntry := ⟨"report_2023.pdf", "/report_2023.pdf"⟩

/-- An entry matching only the photo rule. -/
def ePhoto : FileEntry := ⟨"photo_2023.jpg", "/photo_2023.jpg"⟩

/-- The spec's concrete photo scenario. -/
def eVacation : FileEntry := ⟨"vacation_2023_beach.jpg", "/vacation_2023_beach.jpg"⟩

/-- The spec's upper-case document scenario. -/
def eUpperPdf : FileEntry := ⟨"FILE.PDF", "/FILE.PDF"⟩

/-- The spec's lower-case document scenario. -/
def eLowerPdf : FileEntry := ⟨"file.pdf", "/file.pdf"⟩

/-- The spec's skip-file scenario. -/
def eDropbox : FileEntry := ⟨".dropbox", "/.dropbox"⟩

/-- The spec's two-year-substrings scenario. -/
def eTwoYears : FileEntry := ⟨"2019_vs_2023.jpg", "/2019_vs_2023.jpg"⟩

/-- The success flag of `_move_file` is success in dry-run mode or backend
success otherwise. -/
theorem moveFile_fst (cfg : Config) (orc : Oracle) (s : Stats) (src dst : String) :
    (moveFile cfg orc s src dst).1 = (cfg.dryRun || orc.moveOk src dst) := by
  cases hd : cfg.dryRun <;> cases hm : orc.moveOk src dst <;> simp [moveFile, hd, hm]

/-- `_move_file` leaves the stats unchanged on success and increments the
error counter on failure. -/
theorem moveFile_stats (cfg : Config) (orc : Oracle) (s : Stats) (src dst : String) :
    (moveFile cfg orc s src dst).2.1 =
      (if cfg.dryRun || orc.moveOk src dst then s else { s with errors := s.errors + 1 }) := by
  cases hd : cfg.dryRun <;> cases hm : orc.moveOk src dst <;> simp [moveFile, hd, hm]

/-- `_move_file` issues exactly one backend move call unless in dry-run mode. -/
theorem moveFile_events (cfg : Config) (orc : Oracle) (s : Stats) (src dst : String) :
    (moveFile cfg orc s src dst).2.2 =
      (if cfg.dryRun then [] else [BackendCall.move src dst]) := by
  cases hd : cfg.dryRun <;> cases hm : orc.moveOk src dst <;> simp [moveFile, hd, hm]

/-- `hasSub` decides Python's substring containment: it holds exactly when
the needle is an infix of the haystack. -/
theorem hasSub_iff (n h : List Char) : hasSub n h = true ↔ n <:+: h := by
  induction h with
  | nil =>
      simp [hasSub, List.isEmpty_iff, List.infix_nil]
  | cons c t ih =>
      simp [hasSub, List.infix_cons_iff, List.isPrefixOf_iff_prefix, ih]

/-- Lower-casing never turns a character into a dot. -/
theorem lowerChar_ne_dot (c : Char) (h : c ≠ '.') : lowerChar c ≠ '.' := by
  unfold lowerChar
  split <;> first | decide | exact h

/-- A list without a dot has no extension part. -/
theorem extAfterLastDot_eq_nil (l : List Char) (h : '.' ∉ l) : extAfterLastDot l = [] := by
  induction l with
  | nil => rfl
  | cons c t ih =>
      have hc : c ≠ '.' := fun e => h (e ▸ List.mem_cons_self c t)
      have ht : '.' ∉ t := fun m => h (List.mem_cons_of_mem _ m)
      simp [extAfterLastDot, ih ht, hc]

/-- A filename without a dot has an empty `splitext` extension. -/
theorem splitextExt_eq_empty (name : String) (h : '.' ∉ name.toList) :
    splitextExt name = "" := by
  unfold splitextExt
  have hd : '.' ∉ name.toList.dropWhile (fun c => c == '.') :=
    fun m => h ((List.dropWhile_sublist _).subset m)
  rw [extAfterLastDot_eq_nil _ hd]

/-- Lower-casing a dot-free filename yields a dot-free filename. -/
theorem strLower_no_dot (name : String) (h : '.' ∉ name.toList) :
    '.' ∉ (strLower name).toList := by
  show '.' ∉ name.toList.map lowerChar
  intro m
  rcases List.mem_map.mp m with ⟨c, hc, e⟩
  exact lowerChar_ne_dot c (fun e2 => h (e2 ▸ hc)) e

/-- The year scan returns the match at the leftmost matching position. -/
theorem extractYearAux_first (s : List Char) (i : Nat)
    (hi : yearHere (s.drop i) = true)
    (hmin : ∀ j, j < i → yearHere (s.drop j) = false) :
    extractYearAux s = some ((s.drop i).take 4) := by
  induction s generalizing i with
  | nil =>
      rw [List.drop_nil] at hi
      exact absurd hi (by decide)
  | cons c t ih =>
      cases i with
      | zero =>
          rw [List.drop_zero] at hi
          simp [extractYearAux, hi]
      | succ k =>
          have h0 : yearHere (c :: t) = false := by
            have := hmin 0 (Nat.succ_pos k)
            rwa [List.drop_zero] at this
          rw [List.drop_succ_cons] at hi
          have hmin' : ∀ j, j < k → yearHere (t.drop j) = false := by
            intro j hj
            have := hmin (j + 1) (Nat.succ_lt_succ hj)
            rwa [List.drop_succ_cons] at this
          rw [List.drop_succ_cons]
          simp [extractYearAux, h0, ih k hi hmin']

/-- When no position matches the year pattern, the scan returns nothing. -/
theorem extractYearAux_none (s : List Char) (h : ∀ i, yearHere (s.drop i) = false) :
    extractYearAux s = none := by
  induction s with
  | nil => rfl
  | cons c t ih =>
      have h0 : yearHere (c :: t) = false := by
        have := h 0
        rwa [List.drop_zero] at this
      have ht : ∀ i, yearHere (t.drop i) = false := by
        intro i
        have := h (i + 1)
        rwa [List.drop_succ_cons] at this
      simp [extractYearAux, h0, ih ht]

/-- The photo block does nothing when no year is found. -/
theorem photoStage_none (cfg : Config) (orc : Oracle) (e : FileEntry) (s : Stats)
    (h : extractYearFromFilename cfg e.name = none) :
    photoStage cfg orc e s = (s, false, []) := by
  simp [photoStage, h]

/-- The photo block when a year is found: ensure both folders, attempt the
move, and on success increment the photo counter and set the moved flag. -/
theorem photoStage_some (cfg : Config) (orc : Oracle) (e : FileEntry) (s : Stats)
    (y : String) (h : extractYearFromFilename cfg e.name = some y) :
    photoStage cfg orc e s =
      (if cfg.dryRun || orc.moveOk e.path (photoDest cfg y e.name) then
        ({ s with photosMoved := s.photosMoved + 1 }, true,
          ensureFolderExists cfg (photosRoot cfg) ++ ensureFolderExists cfg (yearFolder cfg y) ++
            (if cfg.dryRun then [] else [BackendCall.move e.path (photoDest cfg y e.name)]))
      else
        ({ s with errors := s.errors + 1 }, false,
          ensureFolderExists cfg (photosRoot cfg) ++ ensureFolderExists cfg (yearFolder cfg y) ++
            [BackendCall.move e.path (photoDest cfg y e.name)])) := by
  simp only [photoStage, h, moveFile_fst, moveFile_stats, moveFile_events]
  cases hc : (cfg.dryRun || orc.moveOk e.path (photoDest cfg y e.name))
  · have hd : cfg.dryRun = false := by
      cases hdd : cfg.dryRun
      · rfl
      · rw [hdd] at hc; simp at hc
    simp [hc, hd, List.append_assoc]
  · simp [hc, List.append_assoc]

/-- The document block does nothing once the file has been moved. -/
theorem docStage_movedTrue (cfg : Config) (orc : Oracle) (e : FileEntry) (s : Stats) :
    docStage cfg orc e s true = (s, true, []) := by
  simp [docStage]

/-- The document block does nothing when the extension does not match. -/
theorem docStage_notDoc (cfg : Config) (orc : Oracle) (e : FileEntry) (s : Stats) (m : Bool)
    (h : isDocument cfg e.name = false) :
    docStage cfg orc e s m = (s, m, []) := by
  simp [docStage, h]

/-- The document block on an unmoved matching file: ensure the folder,
attempt the move, and on success increment the document counter. -/
theorem docStage_isDoc (cfg : Config) (orc : Oracle) (e : FileEntry) (s : Stats)
    (h : isDocument cfg e.name = true) :
    docStage cfg orc e s false =
      (if cfg.dryRun || orc.moveOk e.path (docDest cfg e.name) then
        ({ s with documentsMoved := s.documentsMoved + 1 }, true,
          ensureFolderExists cfg (documentsRoot cfg) ++
            (if cfg.dryRun then [] else [BackendCall.move e.path (docDest cfg e.name)]))
      else
        ({ s with errors := s.errors + 1 }, false,
          ensureFolderExists cfg (documentsRoot cfg) ++
            [BackendCall.move e.path (docDest cfg e.name)])) := by
  simp only [docStage, h, moveFile_fst, moveFile_stats, moveFile_events, Bool.not_false,
    Bool.true_and]
  cases hc : (cfg.dryRun || orc.moveOk e.path (docDest cfg e.name))
  · have hd : cfg.dryRun = false := by
      cases hdd : cfg.dryRun
      · rfl
      · rw [hdd] at hc; simp at hc
    simp [hc, hd]
  · simp [hc]

/-- The temp block does nothing once the file has been moved. -/
theorem tempStage_movedTrue (cfg : Config) (orc : Oracle) (e : FileEntry) (s : Stats) :
    tempStage cfg orc e s true = (s, true, []) := by
  simp [tempStage]

/-- The temp block does nothing when no temp pattern matches. -/
theorem tempStage_notTemp (cfg : Config) (orc : Oracle) (e : FileEntry) (s : Stats) (m : Bool)
    (h : isTempFile cfg e.name = false) :
    tempStage cfg orc e s m = (s, m, []) := by
  simp [tempStage, h]

/-- The temp block on an unmoved matching file: ensure the folder, attempt
the move, and on success increment the temp counter. -/
theorem tempStage_isTemp (cfg : Config) (orc : Oracle) (e : FileEntry) (s : Stats)
    (h : isTempFile cfg e.name = true) :
    tempStage cfg orc e s false =
      (if cfg.dryRun || orc.moveOk e.path (tempDest cfg e.name) then
        ({ s with tempMoved := s.tempMoved + 1 }, true,
          ensureFolderExists cfg (tempRoot cfg) ++
            (if cfg.dryRun then [] else [BackendCall.move e.path (tempDest cfg e.name)]))
      else
        ({ s with errors := s.errors + 1 }, false,
          ensureFolderExists cfg (tempRoot cfg) ++
            [BackendCall.move e.path (tempDest cfg e.name)])) := by
  simp only [tempStage, h, moveFile_fst, moveFile_stats, moveFile_events, Bool.not_false,
    Bool.true_and]
  cases hc : (cfg.dryRun || orc.moveOk e.path (tempDest cfg e.name))
  · have hd : cfg.dryRun = false := by
      cases hdd : cfg.dryRun
      · rfl
      · rw [hdd] at hc; simp at hc
    simp [hc, hd]
  · simp [hc]

/-- `_organize_file` on a skipped entry: only the skip counter changes and no
backend call is issued. -/
theorem organizeFile_skip (cfg : Config) (orc : Oracle) (e : FileEntry) (s : Stats)
    (h : shouldSkip cfg e.path e.name = true) :
    organizeFile cfg orc e s = ({ s with skipped := s.skipped + 1 }, []) := by
  simp [organizeFile, h]

/-- The moved flag and backend calls of the photo block do not depend on the
incoming counters. -/
theorem photoStage_flag_events (cfg : Config) (orc : Oracle) (e : FileEntry) (s s' : Stats) :
    (photoStage cfg orc e s).2 = (photoStage cfg orc e s').2 := by
  rcases hy : extractYearFromFilename cfg e.name with _ | y
  · rw [photoStage_none _ _ _ _ hy, photoStage_none _ _ _ _ hy]
  · rw [photoStage_some _ _ _ _ _ hy, photoStage_some _ _ _ _ _ hy]
    by_cases hc : (cfg.dryRun || orc.moveOk e.path (photoDest cfg y e.name)) = true
    · simp [hc]
    · simp [eq_false_of_ne_true hc]

/-- The moved flag and backend calls of the document block do not depend on
the incoming counters. -/
theorem docStage_flag_events (cfg : Config) (orc : Oracle) (e : FileEntry) (s s' : Stats)
    (m : Bool) : (docStage cfg orc e s m).2 = (docStage cfg orc e s' m).2 := by
  cases m
  · by_cases hdoc : isDocument cfg e.name = true
    · rw [docStage_isDoc _ _ _ _ hdoc, docStage_isDoc _ _ _ _ hdoc]
      by_cases hc : (cfg.dryRun || orc.moveOk e.path (docDest cfg e.name)) = true
      · simp [hc]
      · simp [eq_false_of_ne_true hc]
    · rw [docStage_notDoc _ _ _ _ _ (eq_false_of_ne_true hdoc),
        docStage_notDoc _ _ _ _ _ (eq_false_of_ne_true hdoc)]
  · rw [docStage_movedTrue, docStage_movedTrue]

/-- The moved flag and backend calls of the temp block do not depend on the
incoming counters. -/
theorem tempStage_flag_events (cfg : Config) (orc : Oracle) (e : FileEntry) (s s' : Stats)
    (m : Bool) : (tempStage cfg orc e s m).2 = (tempStage cfg orc e s' m).2 := by
  cases m
  · by_cases htmp : isTempFile cfg e.name = true
    · rw [tempStage_isTemp _ _ _ _ htmp, tempStage_isTemp _ _ _ _ htmp]
      by_cases hc : (cfg.dryRun || orc.moveOk e.path (tempDest cfg e.name)) = true
      · simp [hc]
      · simp [eq_false_of_ne_true hc]
    · rw [tempStage_notTemp _ _ _ _ _ (eq_false_of_ne_true htmp),
        tempStage_notTemp _ _ _ _ _ (eq_false_of_ne_true htmp)]
  · rw [tempStage_movedTrue, tempStage_movedTrue]

/-- The backend trace of `_organize_file` does not depend on the incoming
counters. -/
theorem organizeFile_events_indep (cfg : Config) (orc : Oracle) (e : FileEntry) (s s' : Stats) :
    (organizeFile cfg orc e s).2 = (organizeFile cfg orc e s').2 := by
  by_cases hs : shouldSkip cfg e.path e.name = true
  · rw [organizeFile_skip _ _ _ _ hs, organizeFile_skip _ _ _ _ hs]
  · have hs' : shouldSkip cfg e.path e.name = false := eq_false_of_ne_true hs
    simp only [organizeFile, hs', Bool.false_eq_true, if_false]
    have hp := photoStage_flag_events cfg orc e s s'
    have hp1 : (photoStage cfg orc e s).2.1 = (photoStage cfg orc e s').2.1 := by rw [hp]
    have hp2 : (photoStage cfg orc e s).2.2 = (photoStage cfg orc e s').2.2 := by rw [hp]
    have hd : (docStage cfg orc e (photoStage cfg orc e s).1 (photoStage cfg orc e s).2.1).2
        = (docStage cfg orc e (photoStage cfg orc e s').1
            (photoStage cfg orc e s').2.1).2 := by
      rw [← hp1]
      exact docStage_flag_events cfg orc e _ _ _
    have hd1 : (docStage cfg orc e (photoStage cfg orc e s).1 (photoStage cfg orc e s).2.1).2.1
        = (docStage cfg orc e (photoStage cfg orc e s').1
            (photoStage cfg orc e s').2.1).2.1 := by rw [hd]
    have hd2 : (docStage cfg orc e (photoStage cfg orc e s).1 (photoStage cfg orc e s).2.1).2.2
        = (docStage cfg orc e (photoStage cfg orc e s').1
            (photoStage cfg orc e s').2.1).2.2 := by rw [hd]
    have ht : (tempStage cfg orc e
          (docStage cfg orc e (photoStage cfg orc e s).1 (photoStage cfg orc e s).2.1).1
          (docStage cfg orc e (photoStage cfg orc e s).1 (photoStage cfg orc e s).2.1).2.1).2
        = (tempStage cfg orc e
            (docStage cfg orc e (photoStage cfg orc e s').1 (photoStage cfg orc e s').2.1).1
            (docStage cfg orc e (photoStage cfg orc e s').1
              (photoStage cfg orc e s').2.1).2.1).2 := by
      rw [← hd1]
      exact tempStage_flag_events cfg orc e _ _ _
    have ht2 : (tempStage cfg orc e
          (docStage cfg orc e (photoStage cfg orc e s).1 (photoStage cfg orc e s).2.1).1
          (docStage cfg orc e (photoStage cfg orc e s).1 (photoStage cfg orc e s).2.1).2.1).2.2
        = (tempStage cfg orc e
            (docStage cfg orc e (photoStage cfg orc e s').1 (photoStage cfg orc e s').2.1).1
            (docStage cfg orc e (photoStage cfg orc e s').1
              (photoStage cfg orc e s').2.1).2.1).2.2 := by rw [ht]
    rw [hp2, hd2, ht2]

/-- The photo block adds at most one to the moved counters. -/
theorem photoStage_movedSum_le (cfg : Config) (orc : Oracle) (e : FileEntry) (s : Stats) :
    movedSum (photoStage cfg orc e s).1 ≤ movedSum s + 1 := by
  rcases hy : extractYearFromFilename cfg e.name with _ | y
  · rw [photoStage_none _ _ _ _ hy]
    show movedSum s ≤ movedSum s + 1
    omega
  · rw [photoStage_some _ _ _ _ _ hy]
    by_cases hc : (cfg.dryRun || orc.moveOk e.path (photoDest cfg y e.name)) = true
    · simp [hc, movedSum]
      omega
    · simp [eq_false_of_ne_true hc, movedSum]

/-- When the photo block does not set the moved flag, it leaves the moved
counters unchanged. -/
theorem photoStage_movedSum_of_not_moved (cfg : Config) (orc : Oracle) (e : FileEntry)
    (s : Stats) (h : (photoStage cfg orc e s).2.1 = false) :
    movedSum (photoStage cfg orc e s).1 = movedSum s := by
  rcases hy : extractYearFromFilename cfg e.name with _ | y
  · rw [photoStage_none _ _ _ _ hy]
  · rw [photoStage_some _ _ _ _ _ hy] at h ⊢
    by_cases hc : (cfg.dryRun || orc.moveOk e.path (photoDest cfg y e.name)) = true
    · rw [if_pos hc] at h
      simp at h
    · simp [eq_false_of_ne_true hc, movedSum]

/-- The document block adds at most one to the moved counters. -/
theorem docStage_movedSum_le (cfg : Config) (orc : Oracle) (e : FileEntry) (s : Stats)
    (m : Bool) : movedSum (docStage cfg orc e s m).1 ≤ movedSum s + 1 := by
  cases m
  · by_cases hdoc : isDocument cfg e.name = true
    · rw [docStage_isDoc _ _ _ _ hdoc]
      by_cases hc : (cfg.dryRun || orc.moveOk e.path (docDest cfg e.name)) = true
      · simp [hc, movedSum]
        omega
      · simp [eq_false_of_ne_true hc, movedSum]
    · rw [docStage_notDoc _ _ _ _ _ (eq_false_of_ne_true hdoc)]
      show movedSum s ≤ movedSum s + 1
      omega
  · rw [docStage_movedTrue]
    show movedSum s ≤ movedSum s + 1
    omega

/-- When the document block does not set the moved flag, it leaves the moved
counters unchanged. -/
theorem docStage_movedSum_of_not_moved (cfg : Config) (orc : Oracle) (e : FileEntry)
    (s : Stats) (m : Bool) (h : (docStage cfg orc e s m).2.1 = false) :
    movedSum (docStage cfg orc e s m).1 = movedSum s := by
  cases m
  · by_cases hdoc : isDocument cfg e.name = true
    · rw [docStage_isDoc _ _ _ _ hdoc] at h ⊢
      by_cases hc : (cfg.dryRun || orc.moveOk e.path (docDest cfg e.name)) = true
      · rw [if_pos hc] at h
        simp at h
      · simp [eq_false_of_ne_true hc, movedSum]
    · rw [docStage_notDoc _ _ _ _ _ (eq_false_of_ne_true hdoc)]
  · rw [docStage_movedTrue] at h
    simp at h

/-- The temp block adds at most one to the moved counters. -/
theorem tempStage_movedSum_le (cfg : Config) (orc : Oracle) (e : FileEntry) (s : Stats)
    (m : Bool) : movedSum (tempStage cfg orc e s m).1 ≤ movedSum s + 1 := by
  cases m
  · by_cases htmp : isTempFile cfg e.name = true
    · rw [tempStage_isTemp _ _ _ _ htmp]
      by_cases hc : (cfg.dryRun || orc.moveOk e.path (tempDest cfg e.name)) = true
      · simp [hc, movedSum]
        omega
      · simp [eq_false_of_ne_true hc, movedSum]
    · rw [tempStage_notTemp _ _ _ _ _ (eq_false_of_ne_true htmp)]
      show movedSum s ≤ movedSum s + 1
      omega
  · rw [tempStage_movedTrue]
    show movedSum s ≤ movedSum s + 1
    omega

/-- C10: for every single file entry processed, the sum of the moved counters
(photos_moved + documents_moved + temp_moved) increases by at most one: once
a move for the entry succeeds, the `moved` flag blocks every later category
block, so no entry is ever counted as moved into two categories. -/
theorem C10_moved_counters_at_most_one (cfg : Config) (orc : Oracle) (e : FileEntry)
    (s : Stats) : movedSum (organizeFile cfg orc e s).1 ≤ movedSum s + 1 := by
  by_cases hs : shouldSkip cfg e.path e.name = true
  · rw [organizeFile_skip _ _ _ _ hs]
    show movedSum s ≤ movedSum s + 1
    omega
  · have hs' : shouldSkip cfg e.path e.name = false := eq_false_of_ne_true hs
    simp only [organizeFile, hs', Bool.false_eq_true, if_false]
    cases hp : (photoStage cfg orc e s).2.1
    · have hps := photoStage_movedSum_of_not_moved cfg orc e s hp
      cases hd : (docStage cfg orc e (photoStage cfg orc e s).1 false).2.1
      · have hds := docStage_movedSum_of_not_moved cfg orc e _ false hd
        have htl := tempStage_movedSum_le cfg orc e
          (docStage cfg orc e (photoStage cfg orc e s).1 false).1 false
        omega
      · have hdle := docStage_movedSum_le cfg orc e (photoStage cfg orc e s).1 false
        simp only [tempStage_movedTrue]
        show movedSum (docStage cfg orc e (photoStage cfg orc e s).1 false).1 ≤ movedSum s + 1
        omega
    · have hple := photoStage_movedSum_le cfg orc e s
      simp only [docStage_movedTrue, tempStage_movedTrue]
      show movedSum (photoStage cfg orc e s).1 ≤ movedSum s + 1
      omega

/-- Against an always-succeeding backend outside dry-run mode, the move calls
of `_organize_file` are exactly the single move of the routing decision. -/
theorem organizeFile_allOk_moveCalls (cfg : Config) (e : FileEntry) (s : Stats)
    (hdry : cfg.dryRun = false) :
    moveCalls (organizeFile cfg allOk e s).2 =
      (match route cfg e with
       | .moveTo _ d => [BackendCall.move e.path d]
       | _ => []) := by
  by_cases hs : shouldSkip cfg e.path e.name = true
  · rw [organizeFile_skip _ _ _ _ hs]
    simp [route, hs, moveCalls]
  · have hs' : shouldSkip cfg e.path e.name = false := eq_false_of_ne_true hs
    simp only [organizeFile, hs', Bool.false_eq_true, if_false]
    rcases hy : extractYearFromFilename cfg e.name with _ | y
    · rw [photoStage_none _ _ _ _ hy]
      by_cases hdoc : isDocument cfg e.name = true
      · rw [docStage_isDoc _ _ _ _ hdoc]
        simp only [allOk, hdry, Bool.false_or, if_true]
        simp only [tempStage_movedTrue]
        simp [route, hs', hy, hdoc, moveCalls, ensureFolderExists, hdry, List.filter_append]
      · have hdoc' := eq_false_of_ne_true hdoc
        rw [docStage_notDoc _ _ _ _ _ hdoc']
        by_cases htmp : isTempFile cfg e.name = true
        · rw [tempStage_isTemp _ _ _ _ htmp]
          simp only [allOk, hdry, Bool.false_or, if_true]
          simp [route, hs', hy, hdoc', htmp, moveCalls, ensureFolderExists, hdry,
            List.filter_append]
        · have htmp' := eq_false_of_ne_true htmp
          rw [tempStage_notTemp _ _ _ _ _ htmp']
          simp [route, hs', hy, hdoc', htmp', moveCalls]
    · rw [photoStage_some _ _ _ _ _ hy]
      simp only [allOk, hdry, Bool.false_or, if_true]
      simp only [docStage_movedTrue, tempStage_movedTrue]
      simp [route, hs', hy, moveCalls, ensureFolderExists, hdry, List.filter_append]

/-- C1: rule evaluation follows the fixed total priority order
skip > photo (year match) > document (extension match) > temp (substring
match) > no-match; the first category that matches wins, so a filename
matching two categories is routed to the higher-priority one and no file is
routed to two categories; and the single move call `_organize_file` issues
(against a succeeding backend, outside dry-run) is the one of that
decision. -/
theorem C1_rule_priority (cfg : Config) (e : FileEntry) (s : Stats) :
    (route cfg e = .skip ↔ shouldSkip cfg e.path e.name = true) ∧
    ((∃ d, route cfg e = .moveTo .photos d) ↔
      (shouldSkip cfg e.path e.name = false ∧
        (extractYearFromFilename cfg e.name).isSome = true)) ∧
    ((∃ d, route cfg e = .moveTo .documents d) ↔
      (shouldSkip cfg e.path e.name = false ∧
        (extractYearFromFilename cfg e.name).isSome = false ∧
        isDocument cfg e.name = true)) ∧
    ((∃ d, route cfg e = .moveTo .temp d) ↔
      (shouldSkip cfg e.path e.name = false ∧
        (extractYearFromFilename cfg e.name).isSome = false ∧
        isDocument cfg e.name = false ∧ isTempFile cfg e.name = true)) ∧
    (route cfg e = .noMatch ↔
      (shouldSkip cfg e.path e.name = false ∧
        (extractYearFromFilename cfg e.name).isSome = false ∧
        isDocument cfg e.name = false ∧ isTempFile cfg e.name = false)) ∧
    (cfg.dryRun = false →
      moveCalls (organizeFile cfg allOk e s).2 =
        (match route cfg e with
         | .moveTo _ d => [BackendCall.move e.path d]
         | _ => [])) := by
  refine ⟨?_, ?_, ?_, ?_, ?_, fun hdry => organizeFile_allOk_moveCalls cfg e s hdry⟩ <;>
  · by_cases hs : shouldSkip cfg e.path e.name = true
    · simp [route, hs]
    · have hs' : shouldSkip cfg e.path e.name = false := eq_false_of_ne_true hs
      rcases hy : extractYearFromFilename cfg e.name with _ | y
      · by_cases hdoc : isDocument cfg e.name = true
        · simp [route, hs', hy, hdoc]
        · have hdoc' := eq_false_of_ne_true hdoc
          by_cases htmp : isTempFile cfg e.name = true
          · simp [route, hs', hy, hdoc', htmp]
          · have htmp' := eq_false_of_ne_true htmp
            simp [route, hs', hy, hdoc', htmp']
      · simp [route, hs', hy]

/-- C1 witness: the priority theorem applied at the spec's concrete photo
scenario, with the dry-run hypothesis discharged. -/
theorem C1_rule_priority_witness :
    moveCalls (organizeFile cfgBase allOk eVacation stats0).2 =
      (match route cfgBase eVacation with
       | .moveTo _ d => [BackendCall.move eVacation.path d]
       | _ => []) :=
  (C1_rule_priority cfgBase eVacation stats0).2.2.2.2.2 rfl

/-- C5: routing is pure and deterministic: two entries with the same name and
path receive the same decision, and the backend trace of `_organize_file`
does not depend on the mutable counters, so no hidden state influences or is
mutated by classification. -/
theorem C5_routing_pure_deterministic (cfg : Config) (e₁ e₂ : FileEntry)
    (hn : e₁.name = e₂.name) (hpa : e₁.path = e₂.path) :
    route cfg e₁ = route cfg e₂ ∧
      ∀ (orc : Oracle) (s s' : Stats),
        (organizeFile cfg orc e₁ s).2 = (organizeFile cfg orc e₂ s').2 := by
  obtain ⟨n₁, p₁⟩ := e₁
  obtain ⟨n₂, p₂⟩ := e₂
  cases hn
  cases hpa
  exact ⟨rfl, fun orc s s' => organizeFile_events_indep cfg orc _ s s'⟩

/-- C5 witness: determinism applied at a concrete entry and two distinct
incoming counter states. -/
theorem C5_routing_pure_deterministic_witness :
    route cfgBase eVacation = route cfgBase eVacation ∧
      (organizeFile cfgBase allOk eVacation stats0).2 =
        (organizeFile cfgBase allOk eVacation ⟨1, 2, 3, 4, 5⟩).2 :=
  ⟨(C5_routing_pure_deterministic cfgBase eVacation eVacation rfl rfl).1,
   (C5_routing_pure_deterministic cfgBase eVacation eVacation rfl rfl).2 allOk stats0
     ⟨1, 2, 3, 4, 5⟩⟩

/-- C6: year extraction returns the leftmost match of the default pattern
`20xx`; an entry with a year and no skip match is routed to photos at
`{photos_folder}/{year}/{name}`; `"2019_vs_2023.jpg"` yields `"2019"` and a
filename whose only year-like substring is `"1999"` yields no photo match. -/
theorem C6_year_first_match (cfg : Config) (e : FileEntry) (y : String) :
    (∀ (s : List Char) (i : Nat), yearHere (s.drop i) = true →
        (∀ j, j < i → yearHere (s.drop j) = false) →
        extractYearAux s = some ((s.drop i).take 4)) ∧
    (∀ (s : List Char), (∀ i, yearHere (s.drop i) = false) → extractYearAux s = none) ∧
    (shouldSkip cfg e.path e.name = false →
      extractYearFromFilename cfg e.name = some y →
      route cfg e = .moveTo .photos (photoDest cfg y e.name)) ∧
    extractYearFromFilename cfgBase eTwoYears.name = some "2019" ∧
    extractYearFromFilename cfgBase "oldphoto_1999.jpg" = none := by
  refine ⟨extractYearAux_first, extractYearAux_none, ?_, by decide, by decide⟩
  intro hsk hy
  simp [route, hsk, hy]

/-- C6 witness: the year-routing clause applied at the two-year scenario,
whose extracted year is the first occurrence `"2019"`. -/
theorem C6_year_first_match_witness :
    shouldSkip cfgBase eTwoYears.path eTwoYears.name = false ∧
      extractYearFromFilename cfgBase eTwoYears.name = some "2019" ∧
      route cfgBase eTwoYears = .moveTo .photos (photoDest cfgBase "2019" eTwoYears.name) :=
  ⟨by decide, by decide,
    (C6_year_first_match cfgBase eTwoYears "2019").2.2.1 (by decide) (by decide)⟩

/-- C7: document matching is by exact case-insensitive suffix from the last
dot: a non-skipped, non-year entry whose lower-cased extension is configured
routes to documents; lower-case-equal names classify identically (so
`FILE.PDF` routes to documents exactly as `file.pdf` does); and a dot-free
filename has an empty extension and matches no document rule. -/
theorem C7_document_extension_matching (cfg : Config) (e : FileEntry) :
    (cfg.docsEnabled = true →
      splitextExt (strLower e.name) ∈ cfg.docExtensions →
      shouldSkip cfg e.path e.name = false →
      extractYearFromFilename cfg e.name = none →
      route cfg e = .moveTo .documents (docDest cfg e.name)) ∧
    (∀ n₁ n₂ : String, strLower n₁ = strLower n₂ → isDocument cfg n₁ = isDocument cfg n₂) ∧
    ('.' ∉ e.name.toList → splitextExt e.name = "" ∧
      ("" ∉ cfg.docExtensions → isDocument cfg e.name = false)) ∧
    (isDocument cfgBase eUpperPdf.name = true ∧ isDocument cfgBase eLowerPdf.name = true ∧
      route cfgBase eUpperPdf = .moveTo .documents (docDest cfgBase eUpperPdf.name) ∧
      route cfgBase eLowerPdf = .moveTo .documents (docDest cfgBase eLowerPdf.name)) := by
  refine ⟨?_, ?_, ?_, by decide, by decide, by decide, by decide⟩
  · intro hen hmem hsk hy
    have hdoc : isDocument cfg e.name = true := by
      simp [isDocument, hen, hmem]
    simp [route, hsk, hy, hdoc]
  · intro n₁ n₂ h
    simp only [isDocument, h]
  · intro hnd
    refine ⟨splitextExt_eq_empty _ hnd, fun hne => ?_⟩
    have h2 : '.' ∉ (strLower e.name).toList := strLower_no_dot e.name hnd
    have h3 : splitextExt (strLower e.name) = "" := splitextExt_eq_empty _ h2
    cases hen : cfg.docsEnabled
    · simp [isDocument, hen]
    · simp [isDocument, hen, h3, hne]

/-- C7 witness: the document-routing clause applied at the upper-case
scenario `FILE.PDF`. -/
theorem C7_document_extension_matching_witness :
    route cfgBase eUpperPdf = .moveTo .documents (docDest cfgBase eUpperPdf.name) :=
  (C7_document_extension_matching cfgBase eUpperPdf).1 rfl (by decide) (by decide) (by decide)

/-- C8: an entry is skipped exactly when its path contains a configured skip
folder as a substring (not path-segment-exact) or its name equals or starts
with a configured skip file; a skipped entry produces no backend call and
increments only the skipped counter; and the skip folder `"Temp"` fires on
the unrelated folder name `"MyTemplates"`. -/
theorem C8_skip_semantics (cfg : Config) (orc : Oracle) (e : FileEntry) (s : Stats) :
    (shouldSkip cfg e.path e.name = true ↔
      ((∃ f ∈ cfg.skipFolders, f.toList <:+: e.path.toList) ∨
       (∃ f ∈ cfg.skipFiles, e.name = f ∨ f.toList <+: e.name.toList))) ∧
    (route cfg e = .skip ↔ shouldSkip cfg e.path e.name = true) ∧
    (shouldSkip cfg e.path e.name = true →
      organizeFile cfg orc e s = ({ s with skipped := s.skipped + 1 }, [])) ∧
    shouldSkip cfgSkipTemp "/MyTemplates/notes.txt" "notes.txt" = true := by
  refine ⟨?_, ?_, organizeFile_skip cfg orc e s, by decide⟩
  · simp [shouldSkip, List.any_eq_true, Bool.or_eq_true, hasSub_iff,
      List.isPrefixOf_iff_prefix, beq_iff_eq]
  · by_cases hs : shouldSkip cfg e.path e.name = true
    · simp [route, hs]
    · have hs' := eq_false_of_ne_true hs
      rcases hy : extractYearFromFilename cfg e.name with _ | y
      · by_cases hdoc : isDocument cfg e.name = true
        · simp [route, hs', hy, hdoc]
        · by_cases htmp : isTempFile cfg e.name = true
          · simp [route, hs', hy, eq_false_of_ne_true hdoc, htmp]
          · simp [route, hs', hy, eq_false_of_ne_true hdoc, eq_false_of_ne_true htmp]
      · simp [route, hs', hy]

/-- C8 witness: the skip clause applied at the spec's `.dropbox` scenario. -/
theorem C8_skip_semantics_witness :
    shouldSkip cfgSkipDropbox eDropbox.path eDropbox.name = true ∧
      organizeFile cfgSkipDropbox allOk eDropbox stats0 =
        ({ stats0 with skipped := stats0.skipped + 1 }, []) :=
  ⟨by decide, (C8_skip_semantics cfgSkipDropbox allOk eDropbox stats0).2.2.1 (by decide)⟩

/-- In dry-run mode, the photo block touches the backend not at all and
computes the same stats and flag as a successful non-dry run. -/
theorem photoStage_dry (cfg : Config) (orc : Oracle) (e : FileEntry) (s : Stats)
    (hdry : cfg.dryRun = true) :
    photoStage cfg orc e s =
      ((photoStage { cfg with dryRun := false } allOk e s).1,
       (photoStage { cfg with dryRun := false } allOk e s).2.1, []) := by
  rcases hy : extractYearFromFilename cfg e.name with _ | y
  · have hy2 : extractYearFromFilename { cfg with dryRun := false } e.name = none := hy
    rw [photoStage_none _ _ _ _ hy, photoStage_none _ _ _ _ hy2]
  · have hy2 : extractYearFromFilename { cfg with dryRun := false } e.name = some y := hy
    rw [photoStage_some _ _ _ _ _ hy, photoStage_some _ _ _ _ _ hy2]
    simp [hdry, ensureFolderExists, allOk]

/-- In dry-run mode, the document block touches the backend not at all and
computes the same stats and flag as a successful non-dry run. -/
theorem docStage_dry (cfg : Config) (orc : Oracle) (e : FileEntry) (s : Stats) (m : Bool)
    (hdry : cfg.dryRun = true) :
    docStage cfg orc e s m =
      ((docStage { cfg with dryRun := false } allOk e s m).1,
       (docStage { cfg with dryRun := false } allOk e s m).2.1, []) := by
  cases m
  · by_cases hdoc : isDocument cfg e.name = true
    · have hdoc2 : isDocument { cfg with dryRun := false } e.name = true := hdoc
      rw [docStage_isDoc _ _ _ _ hdoc, docStage_isDoc _ _ _ _ hdoc2]
      simp [hdry, ensureFolderExists, allOk]
    · have h' := eq_false_of_ne_true hdoc
      have h2 : isDocument { cfg with dryRun := false } e.name = false := h'
      rw [docStage_notDoc _ _ _ _ _ h', docStage_notDoc _ _ _ _ _ h2]
  · rw [docStage_movedTrue, docStage_movedTrue]

/-- In dry-run mode, the temp block touches the backend not at all and
computes the same stats and flag as a successful non-dry run. -/
theorem tempStage_dry (cfg : Config) (orc : Oracle) (e : FileEntry) (s : Stats) (m : Bool)
    (hdry : cfg.dryRun = true) :
    tempStage cfg orc e s m =
      ((tempStage { cfg with dryRun := false } allOk e s m).1,
       (tempStage { cfg with dryRun := false } allOk e s m).2.1, []) := by
  cases m
  · by_cases htmp : isTempFile cfg e.name = true
    · have htmp2 : isTempFile { cfg with dryRun := false } e.name = true := htmp
      rw [tempStage_isTemp _ _ _ _ htmp, tempStage_isTemp _ _ _ _ htmp2]
      simp [hdry, ensureFolderExists, allOk]
    · have h' := eq_false_of_ne_true htmp
      have h2 : isTempFile { cfg with dryRun := false } e.name = false := h'
      rw [tempStage_notTemp _ _ _ _ _ h', tempStage_notTemp _ _ _ _ _ h2]
  · rw [tempStage_movedTrue, tempStage_movedTrue]

/-- In dry-run mode, `_organize_file` issues no backend call and updates the
stats exactly as a fully successful non-dry run would. -/
theorem organizeFile_dry (cfg : Config) (orc : Oracle) (e : FileEntry) (s : Stats)
    (hdry : cfg.dryRun = true) :
    organizeFile cfg orc e s =
      ((organizeFile { cfg with dryRun := false } allOk e s).1, []) := by
  by_cases hs : shouldSkip cfg e.path e.name = true
  · have hs2 : shouldSkip { cfg with dryRun := false } e.path e.name = true := hs
    rw [organizeFile_skip _ _ _ _ hs, organizeFile_skip _ _ _ _ hs2]
  · have hs' := eq_false_of_ne_true hs
    have hs2 : shouldSkip { cfg with dryRun := false } e.path e.name = false := hs'
    simp only [organizeFile, hs', hs2, Bool.false_eq_true, if_false]
    rw [photoStage_dry cfg orc e s hdry]
    rw [docStage_dry cfg orc e _ _ hdry]
    rw [tempStage_dry cfg orc e _ _ hdry]
    simp

/-- C9: in dry-run mode, for every entry of a run, routing is still computed
and the counters are updated exactly as if every move succeeded, but no
`ensure_folder` or `move` call reaches the backend, so the backend state is
unchanged by the whole run. -/
theorem C9_dry_run_no_backend_calls (cfg : Config) (orc : Oracle)
    (entries : List FileEntry) (s : Stats) (hdry : cfg.dryRun = true) :
    (runOrganize cfg orc entries s).2 = [] ∧
    (runOrganize cfg orc entries s).1 =
      (runOrganize { cfg with dryRun := false } allOk entries s).1 := by
  induction entries generalizing s with
  | nil => exact ⟨rfl, rfl⟩
  | cons e es ih =>
      simp only [runOrganize]
      rw [organizeFile_dry cfg orc e s hdry]
      obtain ⟨ih1, ih2⟩ := ih ((organizeFile { cfg with dryRun := false } allOk e s).1)
      constructor
      · simp [ih1]
      · simp [ih2]

/-- C9 witness: the dry-run theorem applied to a concrete two-entry run over
an all-failing backend. -/
theorem C9_dry_run_no_backend_calls_witness :
    cfgDry.dryRun = true ∧
      (runOrganize cfgDry movesFail [eVacation, eDropbox] stats0).2 = [] ∧
      (runOrganize cfgDry movesFail [eVacation, eDropbox] stats0).1 =
        (runOrganize { cfgDry with dryRun := false } allOk [eVacation, eDropbox] stats0).1 :=
  ⟨rfl, C9_dry_run_no_backend_calls cfgDry movesFail [eVacation, eDropbox] stats0 rfl⟩

/-- `moveCalls` distributes over trace concatenation. -/
theorem moveCalls_append (a b : List BackendCall) :
    moveCalls (a ++ b) = moveCalls a ++ moveCalls b := by
  simp [moveCalls]

/-- The photo block issues at most one move call. -/
theorem photoStage_moveCalls_le (cfg : Config) (orc : Oracle) (e : FileEntry) (s : Stats) :
    (moveCalls (photoStage cfg orc e s).2.2).length ≤ 1 := by
  rcases hy : extractYearFromFilename cfg e.name with _ | y
  · rw [photoStage_none _ _ _ _ hy]
    simp [moveCalls]
  · rw [photoStage_some _ _ _ _ _ hy]
    by_cases hc : (cfg.dryRun || orc.moveOk e.path (photoDest cfg y e.name)) = true
    · simp only [hc, if_true]
      cases hd : cfg.dryRun <;>
        simp [moveCalls, List.filter_append, ensureFolderExists, hd]
    · simp only [eq_false_of_ne_true hc, Bool.false_eq_true, if_false]
      cases hd : cfg.dryRun <;>
        simp [moveCalls, List.filter_append, ensureFolderExists, hd]

/-- The document block issues at most one move call. -/
theorem docStage_moveCalls_le (cfg : Config) (orc : Oracle) (e : FileEntry) (s : Stats)
    (m : Bool) : (moveCalls (docStage cfg orc e s m).2.2).length ≤ 1 := by
  cases m
  · by_cases hdoc : isDocument cfg e.name = true
    · rw [docStage_isDoc _ _ _ _ hdoc]
      by_cases hc : (cfg.dryRun || orc.moveOk e.path (docDest cfg e.name)) = true
      · simp only [hc, if_true]
        cases hd : cfg.dryRun <;>
          simp [moveCalls, List.filter_append, ensureFolderExists, hd]
      · simp only [eq_false_of_ne_true hc, Bool.false_eq_true, if_false]
        cases hd : cfg.dryRun <;>
          simp [moveCalls, List.filter_append, ensureFolderExists, hd]
    · rw [docStage_notDoc _ _ _ _ _ (eq_false_of_ne_true hdoc)]
      simp [moveCalls]
  · rw [docStage_movedTrue]
    simp [moveCalls]

/-- The temp block issues at most one move call. -/
theorem tempStage_moveCalls_le (cfg : Config) (orc : Oracle) (e : FileEntry) (s : Stats)
    (m : Bool) : (moveCalls (tempStage cfg orc e s m).2.2).length ≤ 1 := by
  cases m
  · by_cases htmp : isTempFile cfg e.name = true
    · rw [tempStage_isTemp _ _ _ _ htmp]
      by_cases hc : (cfg.dryRun || orc.moveOk e.path (tempDest cfg e.name)) = true
      · simp only [hc, if_true]
        cases hd : cfg.dryRun <;>
          simp [moveCalls, List.filter_append, ensureFolderExists, hd]
      · simp only [eq_false_of_ne_true hc, Bool.false_eq_true, if_false]
        cases hd : cfg.dryRun <;>
          simp [moveCalls, List.filter_append, ensureFolderExists, hd]
    · rw [tempStage_notTemp _ _ _ _ _ (eq_false_of_ne_true htmp)]
      simp [moveCalls]
  · rw [tempStage_movedTrue]
    simp [moveCalls]

/-- `successMoves` distributes over trace concatenation. -/
theorem successMoves_append (orc : Oracle) (a b : List BackendCall) :
    successMoves orc (a ++ b) = successMoves orc a ++ successMoves orc b := by
  simp [successMoves]

/-- The empty trace has no successful move. -/
theorem successMoves_nil (orc : Oracle) : successMoves orc [] = [] := rfl

/-- The photo block issues at most one successful move call, and when it
issues one it also sets the moved flag. -/
theorem photoStage_successMoves (cfg : Config) (orc : Oracle) (e : FileEntry) (s : Stats) :
    (successMoves orc (photoStage cfg orc e s).2.2).length ≤ 1 ∧
    (successMoves orc (photoStage cfg orc e s).2.2 ≠ [] →
      (photoStage cfg orc e s).2.1 = true) := by
  rcases hy : extractYearFromFilename cfg e.name with _ | y
  · rw [photoStage_none _ _ _ _ hy]
    simp [successMoves]
  · rw [photoStage_some _ _ _ _ _ hy]
    by_cases hc : (cfg.dryRun || orc.moveOk e.path (photoDest cfg y e.name)) = true
    · simp only [hc, if_true]
      refine ⟨?_, by simp⟩
      cases hd : cfg.dryRun <;>
        · cases hm : orc.moveOk e.path (photoDest cfg y e.name) <;>
            simp [successMoves, List.filter_append, ensureFolderExists, hd, hm]
    · have hd : cfg.dryRun = false := by
        cases hdd : cfg.dryRun
        · rfl
        · rw [hdd] at hc; simp at hc
      have hm : orc.moveOk e.path (photoDest cfg y e.name) = false := by
        cases hmm : orc.moveOk e.path (photoDest cfg y e.name)
        · rfl
        · rw [hmm] at hc; simp [hd] at hc
      simp only [eq_false_of_ne_true hc, Bool.false_eq_true, if_false]
      simp [successMoves, List.filter_append, ensureFolderExists, hd, hm]

/-- The document block issues at most one successful move call, and when it
issues one it also sets the moved flag. -/
theorem docStage_successMoves (cfg : Config) (orc : Oracle) (e : FileEntry) (s : Stats)
    (m : Bool) :
    (successMoves orc (docStage cfg orc e s m).2.2).length ≤ 1 ∧
    (successMoves orc (docStage cfg orc e s m).2.2 ≠ [] →
      (docStage cfg orc e s m).2.1 = true) := by
  cases m
  · by_cases hdoc : isDocument cfg e.name = true
    · rw [docStage_isDoc _ _ _ _ hdoc]
      by_cases hc : (cfg.dryRun || orc.moveOk e.path (docDest cfg e.name)) = true
      · simp only [hc, if_true]
        refine ⟨?_, by simp⟩
        cases hd : cfg.dryRun <;>
          · cases hm : orc.moveOk e.path (docDest cfg e.name) <;>
              simp [successMoves, List.filter_append, ensureFolderExists, hd, hm]
      · have hd : cfg.dryRun = false := by
          cases hdd : cfg.dryRun
          · rfl
          · rw [hdd] at hc; simp at hc
        have hm : orc.moveOk e.path (docDest cfg e.name) = false := by
          cases hmm : orc.moveOk e.path (docDest cfg e.name)
          · rfl
          · rw [hmm] at hc; simp [hd] at hc
        simp only [eq_false_of_ne_true hc, Bool.false_eq_true, if_false]
        simp [successMoves, List.filter_append, ensureFolderExists, hd, hm]
    · rw [docStage_notDoc _ _ _ _ _ (eq_false_of_ne_true hdoc)]
      simp [successMoves]
  · rw [docStage_movedTrue]
    exact ⟨by simp [successMoves], fun _ => rfl⟩

/-- The temp block issues at most one successful move call. -/
theorem tempStage_successMoves (cfg : Config) (orc : Oracle) (e : FileEntry) (s : Stats)
    (m : Bool) : (successMoves orc (tempStage cfg orc e s m).2.2).length ≤ 1 := by
  cases m
  · by_cases htmp : isTempFile cfg e.name = true
    · rw [tempStage_isTemp _ _ _ _ htmp]
      by_cases hc : (cfg.dryRun || orc.moveOk e.path (tempDest cfg e.name)) = true
      · simp only [hc, if_true]
        cases hd : cfg.dryRun <;>
          · cases hm : orc.moveOk e.path (tempDest cfg e.name) <;>
              simp [successMoves, List.filter_append, ensureFolderExists, hd, hm]
      · simp only [eq_false_of_ne_true hc, Bool.false_eq_true, if_false]
        cases hd : cfg.dryRun <;>
          · cases hm : orc.moveOk e.path (tempDest cfg e.name) <;>
              simp [successMoves, List.filter_append, ensureFolderExists, hd, hm]
    · rw [tempStage_notTemp _ _ _ _ _ (eq_false_of_ne_true htmp)]
      simp [successMoves]
  · rw [tempStage_movedTrue]
    simp [successMoves]

/-- C2 counterexample: on the entry `report_2023.pdf`, which matches both the
photo rule and the document rule, a backend whose moves all fail receives
two move calls within one `_organize_file` invocation — first to the photo
destination, then to the document destination — refuting at-most-one move
attempt per entry per run. -/
theorem C2_single_attempt_counterexample :
    (organizeFile cfgBase movesFail eReport stats0).2 =
      [.ensure "/Photos Archive", .ensure "/Photos Archive/2023",
       .move "/report_2023.pdf" "/Photos Archive/2023/report_2023.pdf",
       .ensure "/Documents & Files",
       .move "/report_2023.pdf" "/Documents & Files/report_2023.pdf"] ∧
    (moveCalls (organizeFile cfgBase movesFail eReport stats0).2).length = 2 := by
  decide

/-- C2 amended: `_organize_file` issues at most one move attempt per
category: each category block issues at most one move call and the entry's
backend trace is exactly the concatenation of the three blocks' traces
(hence at most three move calls per entry); a block reached with the moved
flag set issues nothing; at most one of the issued move calls succeeds; and
when every attempt succeeds at most one move call is issued — but a failed
attempt falls through to the next matching lower-priority category, which
may issue another attempt for the same entry. -/
theorem C2_at_most_one_attempt_per_category (cfg : Config) (orc : Oracle) (e : FileEntry)
    (s : Stats) :
    (moveCalls (organizeFile cfg orc e s).2).length ≤ 3 ∧
    ((∀ s', (moveCalls (photoStage cfg orc e s').2.2).length ≤ 1) ∧
     (∀ s' m, (moveCalls (docStage cfg orc e s' m).2.2).length ≤ 1) ∧
     (∀ s' m, (moveCalls (tempStage cfg orc e s' m).2.2).length ≤ 1)) ∧
    (shouldSkip cfg e.path e.name = false →
      (organizeFile cfg orc e s).2 =
        (photoStage cfg orc e s).2.2 ++
        (docStage cfg orc e (photoStage cfg orc e s).1 (photoStage cfg orc e s).2.1).2.2 ++
        (tempStage cfg orc e
          (docStage cfg orc e (photoStage cfg orc e s).1 (photoStage cfg orc e s).2.1).1
          (docStage cfg orc e (photoStage cfg orc e s).1
            (photoStage cfg orc e s).2.1).2.1).2.2) ∧
    (∀ s', docStage cfg orc e s' true = (s', true, []) ∧
      tempStage cfg orc e s' true = (s', true, [])) ∧
    (successMoves orc (organizeFile cfg orc e s).2).length ≤ 1 ∧
    ((∀ a b, orc.moveOk a b = true) →
      (moveCalls (organizeFile cfg orc e s).2).length ≤ 1) := by
  refine ⟨?_, ⟨fun s' => photoStage_moveCalls_le cfg orc e s',
      fun s' m => docStage_moveCalls_le cfg orc e s' m,
      fun s' m => tempStage_moveCalls_le cfg orc e s' m⟩, ?_,
    fun s' => ⟨docStage_movedTrue cfg orc e s', tempStage_movedTrue cfg orc e s'⟩, ?_, ?_⟩
  · by_cases hs : shouldSkip cfg e.path e.name = true
    · rw [organizeFile_skip _ _ _ _ hs]
      simp [moveCalls]
    · have hs' : shouldSkip cfg e.path e.name = false := eq_false_of_ne_true hs
      simp only [organizeFile, hs', Bool.false_eq_true, if_false]
      rw [moveCalls_append, moveCalls_append, List.length_append, List.length_append]
      have h1 := photoStage_moveCalls_le cfg orc e s
      have h2 := docStage_moveCalls_le cfg orc e (photoStage cfg orc e s).1
        (photoStage cfg orc e s).2.1
      have h3 := tempStage_moveCalls_le cfg orc e
        (docStage cfg orc e (photoStage cfg orc e s).1 (photoStage cfg orc e s).2.1).1
        (docStage cfg orc e (photoStage cfg orc e s).1 (photoStage cfg orc e s).2.1).2.1
      omega
  · intro hs'
    simp only [organizeFile, hs', Bool.false_eq_true, if_false]
  · by_cases hs : shouldSkip cfg e.path e.name = true
    · rw [organizeFile_skip _ _ _ _ hs]
      simp [successMoves]
    · have hs' : shouldSkip cfg e.path e.name = false := eq_false_of_ne_true hs
      simp only [organizeFile, hs', Bool.false_eq_true, if_false]
      rw [successMoves_append, successMoves_append, List.length_append, List.length_append]
      obtain ⟨hp1, hp2⟩ := photoStage_successMoves cfg orc e s
      obtain ⟨hd1, hd2⟩ := docStage_successMoves cfg orc e (photoStage cfg orc e s).1
        (photoStage cfg orc e s).2.1
      have ht1 := tempStage_successMoves cfg orc e
        (docStage cfg orc e (photoStage cfg orc e s).1 (photoStage cfg orc e s).2.1).1
        (docStage cfg orc e (photoStage cfg orc e s).1 (photoStage cfg orc e s).2.1).2.1
      by_cases hpe : successMoves orc (photoStage cfg orc e s).2.2 = []
      · by_cases hde : successMoves orc (docStage cfg orc e (photoStage cfg orc e s).1
            (photoStage cfg orc e s).2.1).2.2 = []
        · rw [hpe, hde]
          simp only [List.length_nil]
          omega
        · have hflag := hd2 hde
          have htend : (tempStage cfg orc e
              (docStage cfg orc e (photoStage cfg orc e s).1 (photoStage cfg orc e s).2.1).1
              (docStage cfg orc e (photoStage cfg orc e s).1
                (photoStage cfg orc e s).2.1).2.1).2.2 = [] := by
            rw [hflag, tempStage_movedTrue]
          rw [hpe, htend]
          simp only [successMoves_nil, List.length_nil]
          omega
      · have hflag := hp2 hpe
        have hdend : (docStage cfg orc e (photoStage cfg orc e s).1
            (photoStage cfg orc e s).2.1).2.2 = [] := by
          rw [hflag, docStage_movedTrue]
        have htend : (tempStage cfg orc e
            (docStage cfg orc e (photoStage cfg orc e s).1 (photoStage cfg orc e s).2.1).1
            (docStage cfg orc e (photoStage cfg orc e s).1
              (photoStage cfg orc e s).2.1).2.1).2.2 = [] := by
          rw [hflag]
          simp [docStage_movedTrue, tempStage_movedTrue]
        rw [hdend, htend]
        simp only [successMoves_nil, List.length_nil]
        omega
  · intro hok
    by_cases hs : shouldSkip cfg e.path e.name = true
    · rw [organizeFile_skip _ _ _ _ hs]
      simp [moveCalls]
    · have hs' : shouldSkip cfg e.path e.name = false := eq_false_of_ne_true hs
      simp only [organizeFile, hs', Bool.false_eq_true, if_false]
      rcases hy : extractYearFromFilename cfg e.name with _ | y
      · rw [photoStage_none _ _ _ _ hy]
        by_cases hdoc : isDocument cfg e.name = true
        · rw [docStage_isDoc _ _ _ _ hdoc]
          have hc : (cfg.dryRun || orc.moveOk e.path (docDest cfg e.name)) = true := by
            simp [hok]
          simp only [hc, if_true]
          simp only [tempStage_movedTrue]
          cases hd : cfg.dryRun <;>
            simp [moveCalls, List.filter_append, ensureFolderExists, hd]
        · rw [docStage_notDoc _ _ _ _ _ (eq_false_of_ne_true hdoc)]
          by_cases htmp : isTempFile cfg e.name = true
          · rw [tempStage_isTemp _ _ _ _ htmp]
            have hc : (cfg.dryRun || orc.moveOk e.path (tempDest cfg e.name)) = true := by
              simp [hok]
            simp only [hc, if_true]
            cases hd : cfg.dryRun <;>
              simp [moveCalls, List.filter_append, ensureFolderExists, hd]
          · rw [tempStage_notTemp _ _ _ _ _ (eq_false_of_ne_true htmp)]
            simp [moveCalls]
      · rw [photoStage_some _ _ _ _ _ hy]
        have hc : (cfg.dryRun || orc.moveOk e.path (photoDest cfg y e.name)) = true := by
          simp [hok]
        simp only [hc, if_true]
        simp only [docStage_movedTrue, tempStage_movedTrue]
        cases hd : cfg.dryRun <;>
          simp [moveCalls, List.filter_append, ensureFolderExists, hd]

/-- C2 amended witness: the decomposition, the successful-move bound and the
all-success bound applied at the both-rules entry, with the skip and success
hypotheses discharged at concrete inputs. -/
theorem C2_at_most_one_attempt_per_category_witness :
    (organizeFile cfgBase movesFail eReport stats0).2 =
      (photoStage cfgBase movesFail eReport stats0).2.2 ++
      (docStage cfgBase movesFail eReport (photoStage cfgBase movesFail eReport stats0).1
        (photoStage cfgBase movesFail eReport stats0).2.1).2.2 ++
      (tempStage cfgBase movesFail eReport
        (docStage cfgBase movesFail eReport (photoStage cfgBase movesFail eReport stats0).1
          (photoStage cfgBase movesFail eReport stats0).2.1).1
        (docStage cfgBase movesFail eReport (photoStage cfgBase movesFail eReport stats0).1
          (photoStage cfgBase movesFail eReport stats0).2.1).2.1).2.2 ∧
    (successMoves movesFail (organizeFile cfgBase movesFail eReport stats0).2).length ≤ 1 ∧
    (moveCalls (organizeFile cfgBase allOk eReport stats0).2).length ≤ 1 :=
  ⟨(C2_at_most_one_attempt_per_category cfgBase movesFail eReport stats0).2.2.1 (by decide),
   (C2_at_most_one_attempt_per_category cfgBase movesFail eReport stats0).2.2.2.2.1,
   (C2_at_most_one_attempt_per_category cfgBase allOk eReport stats0).2.2.2.2.2
     (fun _ _ => rfl)⟩

/-- C3 counterexample: against a backend on which every folder ensure fails
but moves succeed, the move that depended on the failed ensure is still
attempted (it appears in the trace and succeeds), and the error counter stays
at zero — refuting both the skipped move and the counted error. -/
theorem C3_ensure_failure_counterexample :
    organizeFile cfgBase ensuresFail ePhoto stats0 =
      (⟨1, 0, 0, 0, 0⟩,
       [.ensure "/Photos Archive", .ensure "/Photos Archive/2023",
        .move "/photo_2023.jpg" "/Photos Archive/2023/photo_2023.jpg"]) ∧
    (organizeFile cfgBase ensuresFail ePhoto stats0).1.errors = 0 := by
  decide

/-- C3 amended: `_ensure_folder_exists` swallows every backend failure, so
the outcome of folder ensures has no effect on `_organize_file` at all: the
dependent move is still attempted, no error is counted for the ensure, and
processing continues; only a failing move increments the error counter. -/
theorem C3_ensure_outcome_ignored (cfg : Config) (mk : String → String → Bool)
    (f f' : String → Bool) (e : FileEntry) (s : Stats) :
    organizeFile cfg ⟨mk, f⟩ e s = organizeFile cfg ⟨mk, f'⟩ e s := rfl

/-- C4 counterexample: with an empty `folders` mapping and the photo rule
enabled, the run does not abort: the entry `photo_2023.jpg` is routed and
moved into the built-in default destination `Photos Archive` — refuting the
fatal configuration error. -/
theorem C4_missing_folder_mapping_counterexample :
    cfgNoFolders.folders = [] ∧
    runOrganize cfgNoFolders allOk [ePhoto] stats0 =
      (⟨1, 0, 0, 0, 0⟩,
       [.ensure "/Photos Archive", .ensure "/Photos Archive/2023",
        .move "/photo_2023.jpg" "/Photos Archive/2023/photo_2023.jpg"]) := by
  decide

/-- C4 amended: a missing folder-mapping entry for a category is not an
error: `folders.get` substitutes the built-in default destination
(`Photos Archive`, `Documents & Files`, `Temp Files`) and routing proceeds
normally. -/
theorem C4_missing_mapping_uses_default (cfg : Config) (e : FileEntry) (y : String) :
    (cfg.folders.find? (fun p => p.1 == "photos") = none →
      shouldSkip cfg e.path e.name = false →
      extractYearFromFilename cfg e.name = some y →
      route cfg e = .moveTo .photos ("/Photos Archive/" ++ y ++ "/" ++ e.name)) ∧
    (cfg.folders.find? (fun p => p.1 == "documents") = none →
      shouldSkip cfg e.path e.name = false →
      extractYearFromFilename cfg e.name = none →
      isDocument cfg e.name = true →
      route cfg e = .moveTo .documents ("/Documents & Files/" ++ e.name)) ∧
    (cfg.folders.find? (fun p => p.1 == "temp") = none →
      shouldSkip cfg e.path e.name = false →
      extractYearFromFilename cfg e.name = none →
      isDocument cfg e.name = false →
      isTempFile cfg e.name = true →
      route cfg e = .moveTo .temp ("/Temp Files/" ++ e.name)) := by
  refine ⟨?_, ?_, ?_⟩
  · intro hfind hsk hy
    have hdest : photoDest cfg y e.name = "/Photos Archive/" ++ y ++ "/" ++ e.name := by
      unfold photoDest yearFolder photosRoot dictGet
      rw [hfind]
      rfl
    simp [route, hsk, hy, hdest]
  · intro hfind hsk hy hdoc
    have hdest : docDest cfg e.name = "/Documents & Files/" ++ e.name := by
      unfold docDest documentsRoot dictGet
      rw [hfind]
      rfl
    simp [route, hsk, hy, hdoc, hdest]
  · intro hfind hsk hy hdoc htmp
    have hdest : tempDest cfg e.name = "/Temp Files/" ++ e.name := by
      unfold tempDest tempRoot dictGet
      rw [hfind]
      rfl
    simp [route, hsk, hy, hdoc, htmp, hdest]

/-- C4 amended witness: the default-destination clause applied at the empty
folder mapping and the concrete photo entry. -/
theorem C4_missing_mapping_uses_default_witness :
    route cfgNoFolders ePhoto =
      .moveTo .photos ("/Photos Archive/" ++ "2023" ++ "/" ++ ePhoto.name) :=
  (C4_missing_mapping_uses_default cfgNoFolders ePhoto "2023").1 rfl (by decide) (by decide)

end DropboxOrg
